import Mathlib

/-!
Verification of the TouchManager device/registry core.

This file is a shallow embedding of the Python sources under `touchdc/`:

* `touchdc/system/command/run/run.py`      (`Run.run_ps`)
* `touchdc/system/command/run/cmd_errors.py`
* `touchdc/system/command/reg/reg.py`      (`Reg.normalise`, `Reg.get_name`,
  `Reg.test_reg`, `Reg.get_reg`, `Reg.set_reg`, `Reg.del_reg`)
* `touchdc/system/command/reg/reg_errors.py`
* `touchdc/system/pnp_errors.py`           (`ERROR_MAP`, `check_error`)
* `touchdc/system/model.py`                (`Device`, `Touchscreen`, `Touchpad`)
* `touchdc/utils/observe.py`               (`Observable.observed`)

Python strings are modelled as `List Char` (`Str`).  The operating-system
boundary (subprocess execution, the consent dialog `Ask.elevate`, and the
temporary JSON exchange file written by PowerShell) is modelled as an
explicit environment `Env`; every subprocess invocation and every consent
consultation is recorded in a `Trace`.  Exceptions are modelled with
`Except Err`.  Functions that re-invoke themselves after an elevation
consent carry an explicit `fuel : Nat` so that they stay structurally
recursive (and hence kernel-computable); in the source every such
recursion passes `elevate=True` and the retry branch requires
`not elevate`, so the recursion depth is at most 1 and any `fuel ≥ 2`
behaves exactly like the Python code.
-/

/-- Python strings, modelled as lists of characters. -/
abbrev Str := List Char

/-- Shorthand: the character list of a Lean string literal. -/
def sL (s : String) : Str := s.toList

/-- ASCII lower-casing of one character, as `str.lower` does for ASCII input.
(All strings handled by the program are ASCII.) -/
def lowerChar (c : Char) : Char :=
  if 'A' ≤ c ∧ c ≤ 'Z' then Char.ofNat (c.toNat + 32) else c

/-- ASCII upper-casing of one character, as `str.upper` does for ASCII input. -/
def upperChar (c : Char) : Char :=
  if 'a' ≤ c ∧ c ≤ 'z' then Char.ofNat (c.toNat - 32) else c

/-- Python `s.lower()`. -/
def lowerL (s : Str) : Str := s.map lowerChar

/-- Python `s.upper()`. -/
def upperL (s : Str) : Str := s.map upperChar

/-- Python whitespace as used by `str.strip` / `str.split()` (ASCII part). -/
def isSpaceP (c : Char) : Bool :=
  c == ' ' || c == '\t' || c == '\n' || c == '\r' ||
  c == Char.ofNat 11 || c == Char.ofNat 12

/-- Python `s.strip()`. -/
def stripL (s : Str) : Str :=
  ((s.dropWhile isSpaceP).reverse.dropWhile isSpaceP).reverse

/-- Python substring test `needle in hay` (for `str` operands). -/
def isSubL (needle : Str) : Str → Bool
  | [] => needle.isPrefixOf []
  | c :: cs => needle.isPrefixOf (c :: cs) || isSubL needle cs

/-- Python `s.split(sep)` for a non-empty separator: split on every
occurrence, keeping empty pieces (`"".split(sep) = [""]`).  The input
shrinks by at least one character per step, so `fuel = s.length + 1`
never runs out; `fuel` only makes the recursion structural. -/
def splitSub (fuel : Nat) (sep : Str) : Str → Str → List Str
  | s, acc =>
    match fuel, s with
    | _, [] => [acc.reverse]
    | 0, s => [acc.reverse ++ s]
    | f + 1, c :: cs =>
      if sep.isPrefixOf (c :: cs) then
        acc.reverse :: splitSub f sep (List.drop (sep.length - 1) cs) []
      else
        splitSub f sep cs (c :: acc)

/-- Python `s.split(sep)`, entry point. -/
def pySplit (s sep : Str) : List Str := splitSub (s.length + 1) sep s []

/-- Python `s.splitlines()` for `\n`-separated text: the trailing line
terminator produces no trailing empty entry. -/
def splitLinesGo : Str → Str → List Str
  | [], acc => [acc.reverse]
  | c :: cs, acc =>
    if c == '\n' then
      acc.reverse :: (match cs with | [] => [] | _ :: _ => splitLinesGo cs [])
    else
      splitLinesGo cs (c :: acc)

/-- Python `s.splitlines()` (only `\n` terminators occur in the modelled data). -/
def splitLines : Str → List Str
  | [] => []
  | c :: cs => splitLinesGo (c :: cs) []

/-- Python `s.split(c, 1)` for a separator known to occur: the part before the
first occurrence and the part after it. -/
def splitOnce (c : Char) : Str → Str × Str
  | [] => ([], [])
  | x :: xs =>
    if x == c then ([], xs)
    else
      let p := splitOnce c xs
      (x :: p.1, p.2)

/-- Model of `Run.safe_path`: double every single quote for a PowerShell literal. -/
def safePathL (s : Str) : Str :=
  s.foldr (fun c acc => if c == Char.ofNat 39 then Char.ofNat 39 :: Char.ofNat 39 :: acc else c :: acc) []

/-- Python `str(rc)` for the `Optional[int]` return code (`str(None) = "None"`). -/
def strOfRc : Option Int → Str
  | none => sL "None"
  | some i => sL (toString i)

/-!
## A small regular-expression engine

`check_error` in the three error files uses `re.search` with `IGNORECASE`.
The patterns only use: literal characters, the character class `[sz]`,
the word boundary `\b`, whitespace repetition `\s+`, the lazy wildcard
`.*?` (whose laziness is irrelevant for the existence of a match; `.`
does not match a newline), and optional pieces `x?` / `(?:...)?`.
Optional pieces are expanded ahead of time: each source regex becomes the
finite set of option-free patterns obtained by taking or dropping every
optional piece, and a text matches the regex iff it matches one expansion
(regexes without backreferences distribute over alternation).
`IGNORECASE` is realised by writing the pattern literals in lower case
and lower-casing the text before searching.
-/

/-- Option-free regex tokens. -/
inductive RE
  /-- a literal character -/
  | lit (c : Char)
  /-- a character class such as `[sz]` -/
  | cls (cs : List Char)
  /-- the word boundary `\b` -/
  | wb
  /-- token `\s+` -/
  | wsPlus
  /-- token `.*?` -/
  | anyLazy
deriving DecidableEq

/-- a regex character `\w` (ASCII range, which is all the program meets). -/
def isWordChar (c : Char) : Bool := c.isAlphanum || c == '_'

/-- Word boundary between an optional previous and next character. -/
def boundary (prev next : Option Char) : Bool :=
  (match prev with | none => false | some c => isWordChar c) !=
  (match next with | none => false | some c => isWordChar c)

/-- Match a token list against a prefix of `rest` (`prev` is the character
just before `rest`, for `\b`).  Every recursive call strictly decreases
`p.length + rest.length`, so `fuel = p.length + rest.length + 1` never
runs out; the `fuel` argument only makes the recursion structural. -/
def matchAt : Nat → List RE → Option Char → Str → Bool
  | 0, _, _, _ => false
  | _ + 1, [], _, _ => true
  | f + 1, .wb :: p, prev, rest => boundary prev rest.head? && matchAt f p prev rest
  | f + 1, .lit c :: p, _, rest =>
    match rest with
    | [] => false
    | x :: xs => x == c && matchAt f p (some x) xs
  | f + 1, .cls cs :: p, _, rest =>
    match rest with
    | [] => false
    | x :: xs => cs.contains x && matchAt f p (some x) xs
  | f + 1, .wsPlus :: p, _, rest =>
    match rest with
    | [] => false
    | x :: xs => isSpaceP x && (matchAt f p (some x) xs || matchAt f (.wsPlus :: p) (some x) xs)
  | f + 1, .anyLazy :: p, prev, rest =>
    matchAt f p prev rest ||
      (match rest with
       | [] => false
       | x :: xs => !(x == '\n') && matchAt f (.anyLazy :: p) (some x) xs)

/-- Model of `re.search`: try to match at every position of `s`. -/
def reSearchAux (p : List RE) : Option Char → Str → Bool
  | prev, s =>
    matchAt (p.length + s.length + 1) p prev s ||
      (match s with
       | [] => false
       | c :: cs => reSearchAux p (some c) cs)

/-- Model of `re.search(pattern, s)` as a boolean (the pattern literals are written
lower-case; the caller lower-cases `s` to realise `IGNORECASE`). -/
def reSearch (p : List RE) (s : Str) : Bool := reSearchAux p none s

/-- The literal tokens of a string. -/
def lits (s : String) : List RE := s.toList.map RE.lit

/-!
## Error taxonomy

One inductive covers the exception classes of `cmd_errors.py`,
`reg_errors.py`, `pnp_errors.py` and the Python builtins the code raises
(`ValueError`, `RuntimeError`, `AssertionError`, `KeyError`,
`NotImplementedError`).
-/

/-- The exception classes raised by the modelled code. -/
inductive Err
  | userAborted          -- cmd_errors.UserAbortedError
  | accessDenied         -- cmd_errors.AccessDeniedError
  | commandNotFound      -- cmd_errors.CommandNotFoundError
  | powershellDisabled   -- cmd_errors.PowershellDisabledError
  | regAborted           -- reg_errors.RegistryOperationAbortedError
  | regPermission        -- reg_errors.RegistryPermissionError
  | regItemNotFound      -- reg_errors.RegistryItemNotFoundError
  | regItemExists        -- reg_errors.RegistryItemExistsError
  | devAborted           -- pnp_errors.DeviceOperationAbortedError
  | devPermission        -- pnp_errors.DevicePermissionError
  | devNotFound          -- pnp_errors.DeviceNotFoundError
  | devPropertyExists    -- pnp_errors.DevicePropertyExistsError
  | devInvalidOperation  -- pnp_errors.DeviceInvalidOperationError
  | pnpGeneric           -- pnp_errors.PnpError (the base class, raised directly)
  | valueError           -- builtin ValueError
  | runtimeError         -- builtin RuntimeError
  | assertionError       -- builtin AssertionError (also stands for a JSON decode failure)
  | keyError             -- builtin KeyError
  | notImplemented       -- builtin NotImplementedError
deriving DecidableEq

/-- Python `error in errors` over a list of exception classes. -/
def errMem (e : Err) (errors : List Err) : Bool := errors.any fun x => decide (x = e)

/-- One source regex, as its set of option-free expansions. -/
abbrev Regex := List (List RE)

/-- Model of `re.search` through the expansions of one source regex. -/
def regexSearch (g : Regex) (s : Str) : Bool := g.any fun p => reSearch p s

/-!
### cmd_errors.py ERROR_MAP
-/

/-- Source regex `r'\baccess.*?not\s+allowed\b'` -/
def patAccessNotAllowedWS : Regex :=
  [[.wb] ++ lits "access" ++ [.anyLazy] ++ lits "not" ++ [.wsPlus] ++ lits "allowed" ++ [.wb]]

/-- Source regex `r'\baccess.*?denied\b'` -/
def patAccessDenied : Regex :=
  [[.wb] ++ lits "access" ++ [.anyLazy] ++ lits "denied" ++ [.wb]]

/-- Source regex `r'PermissionDenied(?:Exception)?'` (lower-cased for IGNORECASE) -/
def patPermissionDenied : Regex :=
  [lits "permissiondenied", lits "permissiondeniedexception"]

/-- Source regex `r'SecurityException'` -/
def patSecurityException : Regex := [lits "securityexception"]

/-- Source regex `r'\boperation.*?cancell?ed\b'` (the optional `l` expanded) -/
def patOperationCancelled : Regex :=
  [[.wb] ++ lits "operation" ++ [.anyLazy] ++ lits "cancelled" ++ [.wb],
   [.wb] ++ lits "operation" ++ [.anyLazy] ++ lits "canceled" ++ [.wb]]

/-- Source regex `r'\bcancell?ed\s+by.*?user\b'` -/
def patCancelledByUser : Regex :=
  [[.wb] ++ lits "cancelled" ++ [.wsPlus] ++ lits "by" ++ [.anyLazy] ++ lits "user" ++ [.wb],
   [.wb] ++ lits "canceled" ++ [.wsPlus] ++ lits "by" ++ [.anyLazy] ++ lits "user" ++ [.wb]]

/-- Source regex `r'\bthe\s+term.*?is\s+not\s+recogni[sz]ed\b'` -/
def patTheTermNotRecognised : Regex :=
  [[.wb] ++ lits "the" ++ [.wsPlus] ++ lits "term" ++ [.anyLazy] ++ lits "is" ++ [.wsPlus] ++
    lits "not" ++ [.wsPlus] ++ lits "recogni" ++ [.cls ['s', 'z']] ++ lits "ed" ++ [.wb]]

/-- Source regex `r'\bnot\s+recogni[sz]ed\s+as\s+the\s+name\s+of\b'` -/
def patNotRecognisedAsName : Regex :=
  [[.wb] ++ lits "not" ++ [.wsPlus] ++ lits "recogni" ++ [.cls ['s', 'z']] ++ lits "ed" ++
    [.wsPlus] ++ lits "as" ++ [.wsPlus] ++ lits "the" ++ [.wsPlus] ++ lits "name" ++
    [.wsPlus] ++ lits "of" ++ [.wb]]

/-- Source regex `r'CommandNotFound(?:Exception)?'` -/
def patCommandNotFound : Regex :=
  [lits "commandnotfound", lits "commandnotfoundexception"]

/-- Source regex `r'\b(?:program.*?blocked)?.*?group\s+policy\b'` (optional group expanded) -/
def patGroupPolicy : Regex :=
  [[.wb] ++ lits "program" ++ [.anyLazy] ++ lits "blocked" ++ [.anyLazy] ++ lits "group" ++
    [.wsPlus] ++ lits "policy" ++ [.wb],
   [.wb, .anyLazy] ++ lits "group" ++ [.wsPlus] ++ lits "policy" ++ [.wb]]

/-- Source regex `r'\b(?:contact\s+your\s+)?system\s+admins?(?:istrators?)?\b'`
(the two optional groups and the two optional letters expanded) -/
def patSystemAdmin : Regex :=
  ([[.wb] ++ lits "contact" ++ [.wsPlus] ++ lits "your" ++ [.wsPlus], [.wb]]).flatMap fun pre =>
    (["", "s", "istrator", "istrators", "sistrator", "sistrators"]).map fun suf =>
      pre ++ lits "system" ++ [.wsPlus] ++ lits "admin" ++ lits suf ++ [.wb]

/-- Model of `cmd_errors.ERROR_MAP`, in its Python insertion order. -/
def cmdErrorMap : List (Err × List Regex) :=
  [(.accessDenied,
     [patAccessNotAllowedWS, patAccessDenied, patPermissionDenied, patSecurityException]),
   (.userAborted, [patOperationCancelled, patCancelledByUser]),
   (.commandNotFound, [patTheTermNotRecognised, patNotRecognisedAsName, patCommandNotFound]),
   (.powershellDisabled, [patGroupPolicy, patSystemAdmin])]

/-!
### reg_errors.py ERROR_MAP
-/

/-- Source regex `r'\bcannot\s+find\s+path\b'` -/
def patCannotFindPath : Regex :=
  [[.wb] ++ lits "cannot" ++ [.wsPlus] ++ lits "find" ++ [.wsPlus] ++ lits "path" ++ [.wb]]

/-- Source regex `r'\bdoes\s+not\s+exist\b'` -/
def patDoesNotExist : Regex :=
  [[.wb] ++ lits "does" ++ [.wsPlus] ++ lits "not" ++ [.wsPlus] ++ lits "exist" ++ [.wb]]

/-- Source regex `r'PathNotFound(?:Exception)?'` -/
def patPathNotFound : Regex := [lits "pathnotfound", lits "pathnotfoundexception"]

/-- Source regex `r'ItemNotFound(?:Exception)?'` -/
def patItemNotFound : Regex := [lits "itemnotfound", lits "itemnotfoundexception"]

/-- Source regex `r'\balready\s+exists\b'` -/
def patAlreadyExists : Regex :=
  [[.wb] ++ lits "already" ++ [.wsPlus] ++ lits "exists" ++ [.wb]]

/-- Source regex `r'ResourceExists(?:Exception)?'` -/
def patResourceExists : Regex := [lits "resourceexists", lits "resourceexistsexception"]

/-- Model of `reg_errors.ERROR_MAP`, in its Python insertion order. -/
def regErrorMap : List (Err × List Regex) :=
  [(.regPermission,
     [patAccessNotAllowedWS, patAccessDenied, patPermissionDenied, patSecurityException]),
   (.regItemNotFound,
     [patCannotFindPath, patDoesNotExist, patPathNotFound, patItemNotFound]),
   (.regItemExists, [patAlreadyExists, patResourceExists])]

/-!
### pnp_errors.py ERROR_MAP
-/

/-- Source regex `r'\baccess.*?not allowed\b'` (a literal space here, unlike the cmd/reg maps) -/
def patAccessNotAllowedSp : Regex :=
  [[.wb] ++ lits "access" ++ [.anyLazy] ++ lits "not allowed" ++ [.wb]]

/-- Source regex `r'\bno\s+devices\s+were\s+found\b'` -/
def patNoDevicesFound : Regex :=
  [[.wb] ++ lits "no" ++ [.wsPlus] ++ lits "devices" ++ [.wsPlus] ++ lits "were" ++
    [.wsPlus] ++ lits "found" ++ [.wb]]

/-- Source regex `r'\balready\s+enabled\b'` -/
def patAlreadyEnabled : Regex :=
  [[.wb] ++ lits "already" ++ [.wsPlus] ++ lits "enabled" ++ [.wb]]

/-- Source regex `r'\balready\s+disabled\b'` -/
def patAlreadyDisabled : Regex :=
  [[.wb] ++ lits "already" ++ [.wsPlus] ++ lits "disabled" ++ [.wb]]

/-- Source regex `r'50'` -/
def patFifty : Regex := [lits "50"]

/-- Model of `pnp_errors.ERROR_MAP`, in its Python insertion order. -/
def pnpErrorMap : List (Err × List Regex) :=
  [(.devPermission, [patAccessNotAllowedSp, patAccessDenied]),
   (.devAborted, [patOperationCancelled, patCancelledByUser]),
   (.devNotFound, [patNoDevicesFound]),
   (.devPropertyExists, [patAlreadyEnabled, patAlreadyDisabled, patFifty])]

/-!
### check_error

Python `check_error` raises the first map entry whose any pattern matches;
the model returns it as `some e` (and `none` for a clean scan).  The
`IGNORECASE` flag is realised by lower-casing the scanned text here (the
pattern literals are written lower-case above).  `pnp_errors.check_error`
additionally searches every pattern against `str(rc)`; that search has no
`IGNORECASE` flag, but lower-casing `str(rc)` is observationally equal
since `str(rc)` is made of digits, `-` and `"None"`, on which no pattern
match is case-sensitive.
-/

/-- Model of `check_error` of cmd_errors.py / reg_errors.py over a given map
(`rc` is accepted but unused there). -/
def checkMap (m : List (Err × List Regex)) (errors : List Err) (output : Str) : Option Err :=
  match m with
  | [] => none
  | (e, gs) :: rest =>
    if errMem e errors && gs.any (fun g => regexSearch g (lowerL output)) then some e
    else checkMap rest errors output

/-- Model of `pnp_errors.check_error` over its map: each pattern is searched in the
output and in `str(rc)`. -/
def checkMapRc (m : List (Err × List Regex)) (errors : List Err) (output : Str)
    (rc : Option Int) : Option Err :=
  match m with
  | [] => none
  | (e, gs) :: rest =>
    if errMem e errors &&
        gs.any (fun g => regexSearch g (lowerL output) || regexSearch g (lowerL (strOfRc rc)))
      then some e
    else checkMapRc rest errors output rc

/-- The default `errors` list of `cmd_errors.check_error`. -/
def cmdAllErrs : List Err := [.accessDenied, .userAborted, .commandNotFound, .powershellDisabled]

/-- The default `errors` list of `reg_errors.check_error`. -/
def regAllErrs : List Err := [.regPermission, .regItemNotFound, .regItemExists]

/-- The default `errors` list of `pnp_errors.check_error`. -/
def pnpAllErrs : List Err := [.devPermission, .devAborted, .devNotFound, .devPropertyExists]

/-- Model of `cmd_errors.check_error(output, rc, errors=errors)`. -/
def cmdCheck (errors : List Err) (output : Str) : Option Err := checkMap cmdErrorMap errors output

/-- Model of `reg_errors.check_error(output, rc, errors=errors)`. -/
def regCheck (errors : List Err) (output : Str) : Option Err := checkMap regErrorMap errors output

/-- Model of `pnp_errors.check_error(output, rc, errors=errors)`. -/
def pnpCheck (errors : List Err) (output : Str) (rc : Option Int) : Option Err :=
  checkMapRc pnpErrorMap errors output rc

/-!
## Reg: registry type normalisation (reg.py)
-/

/-- A registry value payload (`table['data']`); the program only meets
integers and strings. -/
inductive RegData
  | int (i : Int)
  | str (s : Str)
deriving DecidableEq

/-- A registry type tag as accepted by `Reg.normalise` (`Union[int, str]`). -/
inductive RegTy
  | int (i : Int)
  | str (s : Str)
deriving DecidableEq

/-- Python `str(value)` for the `-Value '{value}'` interpolation. -/
def pyStrData : RegData → Str
  | .int i => sL (toString i)
  | .str s => s

/-- Association-list lookup (Python `dict.get`). -/
def alookup {α : Type} [DecidableEq α] {β : Type} : List (α × β) → α → Option β
  | [], _ => none
  | (k, v) :: rest, key => if k = key then some v else alookup rest key

/-- Model of `Reg.WINAPI_REG_TYPES`. -/
def WINAPI_REG_TYPES : List (Str × Int) :=
  [(sL "REG_NONE", 0), (sL "REG_SZ", 1), (sL "REG_EXPAND_SZ", 2), (sL "REG_BINARY", 3),
   (sL "REG_DWORD", 4), (sL "REG_DWORD_LITTLE_ENDIAN", 4), (sL "REG_DWORD_BIG_ENDIAN", 5),
   (sL "REG_LINK", 6), (sL "REG_MULTI_SZ", 7), (sL "REG_RESOURCE_LIST", 8),
   (sL "REG_FULL_RESOURCE_DESCRIPTOR", 9), (sL "REG_RESOURCE_REQUIREMENTS_LIST", 10),
   (sL "REG_QWORD", 11), (sL "REG_QWORD_LITTLE_ENDIAN", 11)]

/-- Model of `Reg.REG_VALUE_KINDS`. -/
def REG_VALUE_KINDS : List (Str × Int) :=
  [(sL "NONE", -1), (sL "UNKNOWN", 0), (sL "STRING", 1), (sL "EXPANDSTRING", 2),
   (sL "BINARY", 3), (sL "DWORD", 4), (sL "MULTISTRING", 7), (sL "QWORD", 11)]

/-- Model of `Reg.REG_VALUE_KIND_NAMES`. -/
def REG_VALUE_KIND_NAMES : List (Int × Str) :=
  [(-1, sL "NONE"), (0, sL "UNKNOWN"), (1, sL "STRING"), (2, sL "EXPANDSTRING"),
   (3, sL "BINARY"), (4, sL "DWORD"), (7, sL "MULTISTRING"), (11, sL "QWORD")]

/-- Model of `Reg.REG_FRIENDLY_NAMES`. -/
def REG_FRIENDLY_NAMES : List (Str × Str) :=
  [(sL "NONE", sL "None"), (sL "UNKNOWN", sL "Unknown"), (sL "STRING", sL "String"),
   (sL "EXPANDSTRING", sL "ExpandString"), (sL "BINARY", sL "Binary"),
   (sL "DWORD", sL "DWord"), (sL "MULTISTRING", sL "MultiString"), (sL "QWORD", sL "QWord")]

/-- Model of `Reg.SUPPORTED_REG_TYPES`. -/
def SUPPORTED_REG_TYPES : List Int := [-1, 0, 1, 2, 3, 4, 7, 11]

/-- The final clamp of `Reg.normalise`:
`if not i in cls.SUPPORTED_REG_TYPES: i = 0`. -/
def clampSupported (i : Int) : Int := if SUPPORTED_REG_TYPES.contains i then i else 0

/-- Model of `Reg.normalise` for one positional argument (with one argument the Python
classmethod returns the single normalised `int`; the list-of-results shape
cannot occur).  `ValueError` is raised for an unknown string name; the
`TypeError` branch cannot occur in this typed model. -/
def normalise1 (t : RegTy) : Except Err Int :=
  match t with
  | .int i => .ok (clampSupported i)
  | .str s0 =>
    let s := upperL (stripL s0)
    if (sL "REG_").isPrefixOf s then
      match alookup WINAPI_REG_TYPES s with
      | some i => .ok (clampSupported i)
      | none => .error .valueError
    else
      match alookup WINAPI_REG_TYPES (sL "REG_" ++ s) with
      | some i => .ok (clampSupported i)
      | none =>
        match alookup REG_VALUE_KINDS s with
        | some i => .ok (clampSupported i)
        | none => .error .valueError

/-- Model of `Reg.get_name` for one positional argument.  (With one argument
`cls.normalise(t)` is a single `int`, so the `not isinstance(i, int)`
guard cannot fire.) -/
def getName1 (t : RegTy) (pretty : Bool) : Except Err Str :=
  match normalise1 t with
  | .error e => .error e
  | .ok i =>
    match alookup REG_VALUE_KIND_NAMES i with
    | none => .error .valueError
    | some n =>
      if pretty then
        match alookup REG_FRIENDLY_NAMES n with
        | none => .error .valueError
        | some f => .ok f
      else .ok n

/-!
## The execution environment and Run.run_ps (run.py)

The operating-system boundary is an `Env`:

* `resp cmd elevated` — the `(returncode, stdout, stderr)` the external
  process produces for a command (for an elevated run this is the content
  read back from the stdout/stderr/retcode exchange files; the
  integer-parse of the retcode file is absorbed into the boundary).
* `wrapOut`/`wrapErr` — the output of the elevation *wrapper* process
  itself (`res.stdout`/`res.stderr` of the `Start-Process` powershell),
  normally empty.
* `regFile path name` — the parsed content of the JSON exchange file that
  `Reg.get_reg`'s PowerShell command writes for `(path, name)`; `none`
  models an empty or undecodable file.
* `ask` — the answer of the consent dialog `Ask.elevate()`.

A `Trace` records every subprocess invocation `(command, elevated)` and
the number of consent consultations.
-/

/-- A command result `(returncode, stdout, stderr)`. -/
structure CmdOut where
  rc : Int
  out : Str
  err : Str
deriving DecidableEq

/-- The modelled outside world. -/
structure Env where
  resp : Str → Bool → CmdOut
  wrapOut : Str → Str
  wrapErr : Str → Str
  regFile : Str → Str → Option (RegData × RegTy)
  ask : Bool

/-- Observable effects: consent consultations and subprocess invocations. -/
structure Trace where
  asks : Nat
  runs : List (Str × Bool)
deriving DecidableEq

/-- Model of `Run.run_ps(cmd, elevate=, auto_elevate=, check=)` (`propogate` only
changes the wrapped command text and is left at its default).  Returns the
`(rc, out, err)` triple or the raised error, together with the trace. -/
def runPS (env : Env) (cmd : Str) : Nat → Bool → Bool → Bool → Trace →
    Except Err CmdOut × Trace
  | 0, _, _, _, tr => (.error .runtimeError, tr)   -- out of fuel: unreachable for fuel ≥ 2
  | _ + 1, true, _auto, check, tr =>
    -- elevated branch: a single wrapper invocation; its own output must be empty
    let tr1 : Trace := ⟨tr.asks, tr.runs ++ [(cmd, true)]⟩
    let resout := stripL (env.wrapOut cmd)
    let reserr := stripL (env.wrapErr cmd)
    if resout ≠ [] ∨ reserr ≠ [] then
      match cmdCheck cmdAllErrs (resout ++ sL "\n" ++ reserr) with
      | some e => (.error e, tr1)
      | none => (.error .runtimeError, tr1)
    else
      let r := env.resp cmd true
      -- `check_error(out+'\n'+err, rc, errors=AccessDeniedError)`
      match cmdCheck [.accessDenied] (r.out ++ sL "\n" ++ r.err) with
      | some .accessDenied =>
        -- `if auto_elevate and not elevate:` — false here, so:
        if check then (.error .accessDenied, tr1) else (.ok r, tr1)
      | _ => (.ok r, tr1)
  | f + 1, false, auto, check, tr =>
    let tr1 : Trace := ⟨tr.asks, tr.runs ++ [(cmd, false)]⟩
    let r := env.resp cmd false
    match cmdCheck [.accessDenied] (r.out ++ sL "\n" ++ r.err) with
    | some .accessDenied =>
      if auto then
        -- `Ask.elevate()` consulted
        let tr2 : Trace := ⟨tr1.asks + 1, tr1.runs⟩
        if env.ask then
          runPS env cmd f true true false tr2   -- `cls.run_ps(cmd, elevate=True)`
        else (.error .userAborted, tr2)
      else if check then (.error .accessDenied, tr1) else (.ok r, tr1)
    | _ => (.ok r, tr1)

/-!
## Reg: registry operations (reg.py)

`@handle_error` wrappers are modelled by `mapErr`.  The decorated
classmethods re-invoke their own decorated selves on the elevation retry;
since the wrappers are idempotent on their own output, wrapping once at
the outside of the raw recursive function is equivalent.
-/

/-- Apply an error translation (a `handle_error` decorator). -/
def mapErr {α : Type} (f : Err → Err) : Except Err α × Trace → Except Err α × Trace
  | (.error e, t) => (.error (f e), t)
  | (.ok a, t) => (.ok a, t)

/-- Model of `Reg.handle_error`: wrap Run errors as Reg errors. -/
def regHandle : Err → Err
  | .userAborted => .regAborted
  | .accessDenied => .regPermission
  | e => e

/-- The `Test-Path` command text of `Reg.test_reg`. -/
def testPathCmd (path : Str) : Str :=
  sL "Test-Path -LiteralPath '" ++ safePathL path ++ sL "'"

/-- The command text of `Reg.get_reg` (the temporary JSON exchange file
name is abstracted as `<tmpjson>`). -/
def getRegCmd (path name : Str) : Str :=
  sL "$key = Get-Item -LiteralPath '" ++ safePathL path ++
  sL "'; $data = $key.GetValue('" ++ name ++
  sL "', $null); if ($data -eq $null) \x7b throw [System.Management.Automation.ItemNotFoundException] \x7d; $type = $key.GetValueKind('" ++
  name ++
  sL "'); $table = @\x7bdata = $data; type = $type\x7d; $json = $table | ConvertTo-Json -Compress; $json_file = '<tmpjson>'; $json >$json_file; New-Item -Path $json_file -Force -Value (Get-Content -Raw -LiteralPath $json_file) | Out-Null"

/-- The `Set-ItemProperty` command text of `Reg.set_reg`. -/
def setPropCmd (path nm : Str) (v : RegData) (tyName : Str) : Str :=
  sL "Set-ItemProperty -LiteralPath '" ++ safePathL path ++ sL "' -Name '" ++ nm ++
  sL "' -Value '" ++ pyStrData v ++ sL "' -Type '" ++ tyName ++ sL "' -Force | Out-Null"

/-- The `New-Item` command text of `Reg.set_reg` (with or without the
piped `New-ItemProperty`). -/
def newItemCmd (path : Str) (prop : Option (Str × RegData × Str)) : Str :=
  sL "New-Item -Path '" ++ safePathL path ++ sL "' -Force" ++
  (match prop with
   | some (nm, v, tyName) =>
     sL " | New-ItemProperty -Name '" ++ nm ++ sL "' -Value '" ++ pyStrData v ++
     sL "' -PropertyType '" ++ tyName ++ sL "' -Force | Out-Null"
   | none => sL " | Out-Null")

/-- The `Remove-Item` command text of `Reg.del_reg` (the source does not
apply `safe_path` here). -/
def removeItemCmd (path : Str) : Str :=
  sL "Remove-Item -LiteralPath '" ++ path ++ sL "' -Recurse -Force | Out-Null"

/-- The `Remove-ItemProperty` command text of `Reg.del_reg`. -/
def removePropCmd (path nm : Str) : Str :=
  sL "Remove-ItemProperty -LiteralPath '" ++ path ++ sL "' -Name '" ++ nm ++ sL "' -Force | Out-Null"

/-- Model of `Reg.get_reg(path, name, elevate=, auto_elevate=)` without the
`handle_error` wrapper. -/
def getRegRaw (env : Env) (path name : Str) : Nat → Bool → Bool → Trace →
    Except Err (RegData × Int) × Trace
  | 0, _, _, tr => (.error .runtimeError, tr)   -- out of fuel: unreachable for fuel ≥ 2
  | f + 1, elevate, auto, tr =>
    match runPS env (getRegCmd path name) (f + 1) elevate auto false tr with
    | (.error e, t) => (.error e, t)
    | (.ok r, t) =>
      if stripL r.out ≠ [] ∨ stripL r.err ≠ [] then
        -- `check_error(out+'\n'+err, rc)` (the reg classifier ignores rc)
        match regCheck regAllErrs (r.out ++ sL "\n" ++ r.err) with
        | some .regPermission =>
          if auto && !elevate then
            -- `Ask.elevate()` consulted
            let t2 : Trace := ⟨t.asks + 1, t.runs⟩
            if env.ask then getRegRaw env path name f true true t2
            else (.error .regPermission, t2)
          else (.error .regPermission, t)
        | some e => (.error e, t)
        | none => (.error .runtimeError, t)   -- "Recieved unexpected output"
      else
        match env.regFile path name with
        | none => (.error .assertionError, t)   -- empty or undecodable exchange file
        | some (data, tyRaw) =>
          match normalise1 tyRaw with
          | .error e => (.error e, t)
          | .ok ty => (.ok (data, ty), t)

/-- Model of `Reg.get_reg`, decorated. -/
def getReg (env : Env) (path name : Str) (fuel : Nat) (elevate auto : Bool) (tr : Trace) :
    Except Err (RegData × Int) × Trace :=
  mapErr regHandle (getRegRaw env path name fuel elevate auto tr)

/-- Model of `Reg.test_reg(path, name=, elevate=, auto_elevate=)` without the
`handle_error` wrapper. -/
def testRegRaw (env : Env) (path : Str) (name : Option Str) (fuel : Nat) (elevate auto : Bool)
    (tr : Trace) : Except Err Bool × Trace :=
  match name with
  | none =>
    match runPS env (testPathCmd path) fuel elevate auto false tr with
    | (.error e, t) => (.error e, t)
    | (.ok r, t) =>
      if lowerL (stripL r.out) = sL "true" then (.ok true, t)
      else if lowerL (stripL r.out) = sL "false" then (.ok false, t)
      else (.error .runtimeError, t)
  | some nm =>
    match getReg env path nm fuel elevate auto tr with
    | (.error .regItemNotFound, t) => (.ok false, t)
    | (.error e, t) => (.error e, t)
    | (.ok _, t) => (.ok true, t)

/-- Model of `Reg.test_reg`, decorated. -/
def testReg (env : Env) (path : Str) (name : Option Str) (fuel : Nat) (elevate auto : Bool)
    (tr : Trace) : Except Err Bool × Trace :=
  mapErr regHandle (testRegRaw env path name fuel elevate auto tr)

/-- Model of `Reg.set_reg(path, name=, value=, reg_type=, skip=, elevate=,
auto_elevate=)` without the `handle_error` wrapper.  Note two source
quirks reproduced literally: the fresh-path guard
`if not cls.test_reg(path): raise RuntimeError("Detected an exisitng key...")`
(which fires exactly when the path does NOT exist), and the elevation
retry `cls.set_reg(path, name, elevate=True)` (which drops `value` and
`reg_type`). -/
def setRegRaw (env : Env) (path : Str) (name : Option Str) (value : Option RegData)
    (regType : Option RegTy) : Nat → Bool → Bool → Bool → Trace → Except Err Unit × Trace
  | 0, _, _, _, tr => (.error .runtimeError, tr)   -- out of fuel: unreachable for fuel ≥ 2
  | f + 1, skip, elevate, auto, tr =>
    let npE : Except Err (Option (Str × RegData × RegTy)) :=
      match name, value, regType with
      | some nm, some v, some ty => .ok (some (nm, v, ty))
      | none, none, none => .ok none
      | _, _, _ => .error .valueError   -- "Bad parameter set"
    match npE with
    | .error e => (.error e, tr)
    | .ok np =>
      -- the `skip` fast path (only for a named value)
      let skipStep : (Except Err Unit × Trace) ⊕ Trace :=
        match np, skip with
        | some (nm, v, ty), true =>
          match getReg env path nm (f + 1) elevate auto tr with
          | (.ok (gv, gt), t1) =>
            match normalise1 (.int gt), normalise1 ty with
            | .ok a, .ok b => if gv = v ∧ a = b then .inl (.ok (), t1) else .inr t1
            | .error e, _ => .inl (.error e, t1)
            | _, .error e => .inl (.error e, t1)
          | (.error .regItemNotFound, t1) => .inr t1
          | (.error e, t1) => .inl (.error e, t1)
        | _, _ => .inr tr
      match skipStep with
      | .inl r => r
      | .inr t1 =>
        match testReg env path none (f + 1) elevate auto t1 with
        | (.error e, t2) => (.error e, t2)
        | (.ok true, t2) =>
          match np with
          | none => (.ok (), t2)   -- the path already exists; nothing else to do
          | some (nm, v, ty) =>
            match getName1 ty false with
            | .error e => (.error e, t2)
            | .ok tyName =>
              match runPS env (setPropCmd path nm v tyName) (f + 1) elevate auto false t2 with
              | (.error e, t3) => (.error e, t3)
              | (.ok r, t3) =>
                if stripL r.out ≠ [] ∨ stripL r.err ≠ [] then
                  match regCheck regAllErrs (r.out ++ sL "\n" ++ r.err) with
                  | some .regPermission =>
                    if auto && !elevate then
                      let t4 : Trace := ⟨t3.asks + 1, t3.runs⟩
                      if env.ask then setRegRaw env path name none none f true true true t4
                      else (.error .regPermission, t4)
                    else (.error .regPermission, t3)
                  | some e => (.error e, t3)
                  | none => (.error .runtimeError, t3)
                else (.ok (), t3)
        | (.ok false, t2) =>
          -- fresh path: `if not cls.test_reg(path): raise RuntimeError(...)`
          match testReg env path none (f + 1) elevate auto t2 with
          | (.error e, t3) => (.error e, t3)
          | (.ok false, t3) => (.error .runtimeError, t3)
            -- "Detected an exisitng key. Raising to prevent overwriting"
          | (.ok true, t3) =>
            match np with
            | none =>
              match runPS env (newItemCmd path none) (f + 1) elevate auto false t3 with
              | (.error e, t4) => (.error e, t4)
              | (.ok r, t4) =>
                if stripL r.out ≠ [] ∨ stripL r.err ≠ [] then
                  match regCheck regAllErrs (r.out ++ sL "\n" ++ r.err) with
                  | some .regPermission =>
                    if auto && !elevate then
                      let t5 : Trace := ⟨t4.asks + 1, t4.runs⟩
                      if env.ask then setRegRaw env path name none none f true true true t5
                      else (.error .regPermission, t5)
                    else (.error .regPermission, t4)
                  | some e => (.error e, t4)
                  | none => (.error .runtimeError, t4)
                else (.ok (), t4)
            | some (nm, v, ty) =>
              match getName1 ty false with
              | .error e => (.error e, t3)
              | .ok tyName =>
                match runPS env (newItemCmd path (some (nm, v, tyName))) (f + 1) elevate auto false t3 with
                | (.error e, t4) => (.error e, t4)
                | (.ok r, t4) =>
                  if stripL r.out ≠ [] ∨ stripL r.err ≠ [] then
                    match regCheck regAllErrs (r.out ++ sL "\n" ++ r.err) with
                    | some .regPermission =>
                      if auto && !elevate then
                        let t5 : Trace := ⟨t4.asks + 1, t4.runs⟩
                        if env.ask then setRegRaw env path name none none f true true true t5
                        else (.error .regPermission, t5)
                      else (.error .regPermission, t4)
                    | some e => (.error e, t4)
                    | none => (.error .runtimeError, t4)
                  else (.ok (), t4)

/-- Model of `Reg.set_reg`, decorated. -/
def setReg (env : Env) (path : Str) (name : Option Str) (value : Option RegData)
    (regType : Option RegTy) (fuel : Nat) (skip elevate auto : Bool) (tr : Trace) :
    Except Err Unit × Trace :=
  mapErr regHandle (setRegRaw env path name value regType fuel skip elevate auto tr)

/-- Model of `Reg.del_reg(path, name=, elevate=, auto_elevate=)` without the
`handle_error` wrapper. -/
def delRegRaw (env : Env) (path : Str) (name : Option Str) : Nat → Bool → Bool → Trace →
    Except Err Unit × Trace
  | 0, _, _, tr => (.error .runtimeError, tr)   -- out of fuel: unreachable for fuel ≥ 2
  | f + 1, elevate, auto, tr =>
    match testReg env path name (f + 1) elevate auto tr with
    | (.error e, t) => (.error e, t)
    | (.ok false, t) => (.ok (), t)   -- already "deleted"
    | (.ok true, t) =>
      let cmd : Str :=
        match name with
        | none => if path ≠ [] then removeItemCmd path
                  else removePropCmd path (sL "None")   -- f-string renders None
        | some nm => removePropCmd path nm
      match runPS env cmd (f + 1) elevate auto false t with
      | (.error e, t2) => (.error e, t2)
      | (.ok r, t2) =>
        if stripL r.out ≠ [] ∨ stripL r.err ≠ [] then
          match regCheck regAllErrs (r.out ++ sL "\n" ++ r.err) with
          | some .regPermission =>
            if auto && !elevate then
              let t3 : Trace := ⟨t2.asks + 1, t2.runs⟩
              if env.ask then delRegRaw env path name f true true t3
              else (.error .regPermission, t3)
            else (.error .regPermission, t2)
          | some e => (.error e, t2)
          | none => (.error .runtimeError, t2)
        else (.ok (), t2)

/-- Model of `Reg.del_reg`, decorated. -/
def delReg (env : Env) (path : Str) (name : Option Str) (fuel : Nat) (elevate auto : Bool)
    (tr : Trace) : Except Err Unit × Trace :=
  mapErr regHandle (delRegRaw env path name fuel elevate auto tr)

/-!
## Device model (model.py)
-/

/-- Model of `Device.handle_error`: wrap Run/Reg errors as device errors. -/
def devHandle : Err → Err
  | .userAborted => .devAborted
  | .regAborted => .devAborted
  | .accessDenied => .devPermission
  | .regPermission => .devPermission
  | e => e

/-- A parsed device block, Python `dict` (assignment keeps insertion order
and overwrites an existing key in place). -/
def insertD : List (Str × Str) → Str → Str → List (Str × Str)
  | [], k, v => [(k, v)]
  | (k', v') :: rest, k, v =>
    if k' = k then (k, v) :: rest else (k', v') :: insertD rest k v

/-- The class data of a `Device` subtype (`DEVICE_NAMES`, `SYSTEM_KEY`,
`USER_KEY`; `no_system_key` marks the `Touchpad` overrides that raise
`NotImplementedError`). -/
structure DeviceCls where
  device_names : List Str
  system_key : Option (Str × Str × RegTy)
  user_key : Option (Str × Str × RegTy)
  no_system_key : Bool

/-- The `Touchscreen` subclass. -/
def Touchscreen : DeviceCls :=
  { device_names := [sL "touch screen", sL "touchscreen"],
    system_key := some (sL "HKLM:\\SOFTWARE\\Microsoft\\Wisp\\Touch", sL "TouchGate", .int 4),
    user_key := some (sL "HKCU:\\SOFTWARE\\Microsoft\\Wisp\\Touch", sL "TouchGate", .int 4),
    no_system_key := false }

/-- The `Touchpad` subclass (`SYSTEM_KEY = ()`; `_check` raises
`NotImplementedError` for mode `system`). -/
def Touchpad : DeviceCls :=
  { device_names := [sL "touch pad", sL "touchpad"],
    system_key := none,
    user_key := some (sL "HKCU:\\Software\\Microsoft\\Windows\\CurrentVersion\\PrecisionTouchPad\\Status",
                      sL "Enabled", .int 4),
    no_system_key := true }

/-- Model of `Device._check(state, mode)` (with the `Touchpad` override): the
`assert`s raise `AssertionError`, the keyless-subtype system-mode check
raises `NotImplementedError`. -/
def checkArgs (cls : DeviceCls) (state mode : Str) : Except Err Unit :=
  if ¬(state = sL "enable" ∨ state = sL "disable" ∨ state = sL "none") then
    .error .assertionError
  else if ¬(mode = sL "device" ∨ mode = sL "system" ∨ mode = sL "user") then
    .error .assertionError
  else if mode = sL "device" ∧ state = sL "none" then
    .error .assertionError
  else if cls.no_system_key ∧ mode = sL "system" then
    .error .notImplemented
  else .ok ()

/-- The device-enumeration command of `Device.get_device`. -/
def enumCmd : Str := sL "pnputil /enum-devices /class HIDClass"

/-- The enable/disable command of `Device._toggle`. -/
def toggleCmdStr (state iid : Str) : Str :=
  sL "pnputil /" ++ state ++ sL "-device \"" ++ iid ++ sL "\""

/-- The block filter of `Device.get_device`:
`any([n.lower() in b.lower() for n in names]) and ':' in b`. -/
def keepBlock (names : List Str) (b : Str) : Bool :=
  (names.any fun n => isSubL (lowerL n) (lowerL b)) && b.contains ':'

/-- The per-block field parser of `Device.get_device`: each line holding a
colon becomes a `strip`ped key/value pair. -/
def parseBlock (b : Str) : List (Str × Str) :=
  (splitLines b).foldl
    (fun d l =>
      if l.contains ':' then
        let p := splitOnce ':' l
        insertD d (stripL p.1) (stripL p.2)
      else d)
    []

/-- The parsed, filtered blocks of `Device.get_device`: stdout is split on
blank lines, matching blocks are kept and parsed. -/
def deviceBlocks (out : Str) (names : List Str) : List (List (Str × Str)) :=
  ((pySplit out (sL "\n\n")).filter (keepBlock names)).map parseBlock

/-- The result of `Device.get_device` (a list of dicts for `get_all`,
otherwise a single dict). -/
inductive GetDevRes
  | one (d : List (Str × Str))
  | all (l : List (List (Str × Str)))
deriving DecidableEq

/-- Model of `Device.get_device(names, get_all=, elevate=, auto_elevate=)` without
the `handle_error` wrapper (`names` already defaulted and normalised to a
list). -/
def getDeviceRaw (env : Env) (names : List Str) : Nat → Bool → Bool → Bool → Trace →
    Except Err GetDevRes × Trace
  | 0, _, _, _, tr => (.error .runtimeError, tr)   -- out of fuel: unreachable for fuel ≥ 2
  | f + 1, get_all, elevate, auto, tr =>
    -- `Run.run_ps("pnputil /enum-devices /class HIDClass", elevate=elevate, auto_elevate=False)`
    match runPS env enumCmd (f + 1) elevate false false tr with
    | (.error e, t) => (.error e, t)
    | (.ok r, t) =>
      let output := stripL (lowerL (r.out ++ sL "\n" ++ r.err))
      match pnpCheck pnpAllErrs output none with
      | some .devPermission =>
        if auto && !elevate then
          -- `Ask.elevate()` consulted
          let t2 : Trace := ⟨t.asks + 1, t.runs⟩
          if env.ask then
            -- `self.get_device(names=names, get_all=get_all, elevate=True)` (decorated)
            mapErr devHandle (getDeviceRaw env names f get_all true true t2)
          else (.error .devAborted, t2)
        else (.error .devPermission, t)
      | some e => (.error e, t)
      | none =>
        let blocks := deviceBlocks r.out names
        if get_all then (.ok (.all blocks), t)
        else
          match blocks with
          | [d] => (.ok (.one d), t)
          | _ => (.error .devNotFound, t)
            -- DeviceNotFoundError("Could not find device: ...")

/-- Model of `Device.get_device`, decorated. -/
def getDevice (env : Env) (names : List Str) (fuel : Nat) (get_all elevate auto : Bool)
    (tr : Trace) : Except Err GetDevRes × Trace :=
  mapErr devHandle (getDeviceRaw env names fuel get_all elevate auto tr)

/-- Model of `Device._toggle(state, mode, elevate=, auto_elevate=)` without the
`handle_error` wrapper. -/
def toggleRaw (env : Env) (dev : DeviceCls) (state mode : Str) : Nat → Bool → Bool → Trace →
    Except Err Unit × Trace
  | 0, _, _, tr => (.error .runtimeError, tr)   -- out of fuel: unreachable for fuel ≥ 2
  | f + 1, elevate, auto, tr =>
    -- `try: self._check(state, mode) except (AssertionError, NotImplementedError): raise DeviceInvalidOperationError`
    match checkArgs dev state mode with
    | .error .assertionError => (.error .devInvalidOperation, tr)
    | .error .notImplemented => (.error .devInvalidOperation, tr)
    | .error e => (.error e, tr)   -- unreachable: `_check` only raises the two above
    | .ok _ =>
      if mode = sL "device" then
        -- `instance_id = self.get_device()['Instance ID']`
        match getDevice env dev.device_names (f + 1) false false true tr with
        | (.error e, t) => (.error e, t)
        | (.ok (.all _), t) => (.error .runtimeError, t)   -- impossible with get_all=False
        | (.ok (.one d), t) =>
          match alookup d (sL "Instance ID") with
          | none => (.error .keyError, t)   -- dict subscript on a missing key
          | some iid =>
            match runPS env (toggleCmdStr state iid) (f + 1) elevate false false t with
            | (.error e, t2) => (.error e, t2)
            | (.ok r, t2) =>
              let outl := stripL (lowerL r.out)
              let errl := stripL (lowerL r.err)
              let output := outl ++ sL "\n" ++ errl
              if outl ≠ [] ∨ errl ≠ [] then
                match pnpCheck pnpAllErrs output none with
                | some .devPermission =>
                  if auto && !elevate then
                    -- `Ask.elevate()` consulted
                    let t3 : Trace := ⟨t2.asks + 1, t2.runs⟩
                    if env.ask then
                      -- `self._toggle(state, mode, elevate=True)` (decorated)
                      mapErr devHandle (toggleRaw env dev state mode f true true t3)
                    else (.error .devAborted, t3)
                  else (.error .devPermission, t2)
                | some .devPropertyExists => (.ok (), t2)
                  -- device already enabled/disabled, nothing to do
                | some e => (.error e, t2)
                | none =>
                  if isSubL (sL "success") output then (.ok (), t2)
                  else (.error .pnpGeneric, t2)
              else
                if isSubL (sL "success") output then (.ok (), t2)
                else (.error .pnpGeneric, t2)
      else
        let key := if mode = sL "system" then dev.system_key else dev.user_key
        match key with
        | none => (.error .runtimeError, tr)
          -- unreachable: unpacking the empty tuple would raise, but `_check` raised first
        | some (path, nm, rty) =>
          if state = sL "disable" then
            -- `Reg.set_reg(path, name, 0, reg_type)` (elevate/auto left at their defaults)
            setReg env path (some nm) (some (.int 0)) (some rty) (f + 1) true false true tr
          else if state = sL "enable" then
            setReg env path (some nm) (some (.int 1)) (some rty) (f + 1) true false true tr
          else
            -- state = none: `if Reg.test_reg(path, name): Reg.del_reg(path, name)`
            match testReg env path (some nm) (f + 1) false true tr with
            | (.error e, t) => (.error e, t)
            | (.ok true, t) => delReg env path (some nm) (f + 1) false true t
            | (.ok false, t) => (.ok (), t)

/-- Model of `Device._toggle`, decorated with `handle_error`. -/
def toggleDec (env : Env) (dev : DeviceCls) (state mode : Str) (fuel : Nat) (elevate auto : Bool)
    (tr : Trace) : Except Err Unit × Trace :=
  mapErr devHandle (toggleRaw env dev state mode fuel elevate auto tr)

/-- Model of `Device.toggle = Observable.observed(_toggle)`: run the operation; on
success call `self.notify()` once, on an exception re-raise without
notifying.  The `Nat` component counts the `notify()` calls. -/
def toggleFn (env : Env) (dev : DeviceCls) (state mode : Str) (fuel : Nat) (elevate auto : Bool)
    (tr : Trace) : (Except Err Unit × Nat) × Trace :=
  let r := toggleDec env dev state mode fuel elevate auto tr
  ((r.1, match r.1 with | .ok _ => 1 | .error _ => 0), r.2)

/-!
## Device.user_active (model.py lines 251-274)

`user_active` combines three property reads: `device_enabled`,
`system_enabled` and `user_enabled`.  The two registry-backed reads
produce `True`, `False` or `None` (key absent / type mismatch / other
data); on a keyless subtype (`Touchpad`) the `system_enabled` property
raises `NotImplementedError`, caught in `user_active`.  The reads are
abstracted as inputs here.
-/

/-- What the `system_enabled` read delivers to `user_active`. -/
inductive SysReading
  | val (v : Option Bool)
  /-- the property raises `NotImplementedError("No system key")` -/
  | noKey
deriving DecidableEq, Fintype

/-- Model of `Device.user_active`, following the source branch for branch. -/
def user_active (dev_enabled : Bool) (sys : SysReading) (usr : Option Bool) : Bool :=
  if !dev_enabled then false   -- device disabled, cannot run
  else
    match sys with
    | .val s =>
      if s = some true ∨ s = none then   -- `self.system_enabled in (True, None)`
        if usr = some false then false else true
      else                               -- explicitly False
        if usr = some false ∨ usr = none then false else true
    | .noKey =>                          -- `except NotImplementedError`
      if usr = some false then false else true

/-!
## Derived helpers shared by the theorems
-/

/-- Whether an `Except` result is a success. -/
def exOk {ε α : Type} : Except ε α → Bool
  | .ok _ => true
  | .error _ => false

deriving instance DecidableEq for Except

/-- The clamp of `Reg.normalise` always lands in the supported set. -/
theorem clampSupported_mem (i : Int) : SUPPORTED_REG_TYPES.contains (clampSupported i) = true := by
  unfold clampSupported
  split
  · assumption
  · decide

/-- Every successful `normalise` result lies in the supported set. -/
theorem normalise1_ok_supported (t : RegTy) (i : Int) (h : normalise1 t = .ok i) :
    SUPPORTED_REG_TYPES.contains i = true := by
  cases t with
  | int j =>
    simp only [normalise1, Except.ok.injEq] at h
    exact h ▸ clampSupported_mem j
  | str s =>
    simp only [normalise1] at h
    split at h
    · split at h
      · simp only [Except.ok.injEq] at h
        exact h ▸ clampSupported_mem _
      · exact absurd h (by simp)
    · split at h
      · simp only [Except.ok.injEq] at h
        exact h ▸ clampSupported_mem _
      · split at h
        · simp only [Except.ok.injEq] at h
          exact h ▸ clampSupported_mem _
        · exact absurd h (by simp)

/-!
## C1 — the `user_active` precedence table
-/

/-- The precedence table exactly as the specification words it: disabled
device ⇒ false; enabled with system true-or-absent ⇒ false exactly when
the user value is explicitly false; enabled with system explicitly false
⇒ true exactly when the user value is explicitly true; no system key ⇒
only the user value, false exactly when it is explicitly false. -/
def user_active_spec (dev_enabled : Bool) (sys : SysReading) (usr : Option Bool) : Bool :=
  if dev_enabled = false then false
  else
    match sys with
    | .val (some false) => decide (usr = some true)
    | .val _ => !decide (usr = some false)
    | .noKey => !decide (usr = some false)

/-- C1: for every device state, system-level reading (true/false/absent or
no system key at all) and user-level value, the derived `user_active`
boolean equals the specification's precedence table. -/
theorem user_active_matches_precedence_table :
    ∀ (dev_enabled : Bool) (sys : SysReading) (usr : Option Bool),
      user_active dev_enabled sys usr = user_active_spec dev_enabled sys usr := by
  decide

/-!
## C6 / C7 — registry type normalisation
-/

/-- All registry type names in use: the low-level WinAPI names, the same
without the `REG_` prefix, the high-level kind names, and the
human-friendly names. -/
def regTypeNameDomain : List Str :=
  WINAPI_REG_TYPES.map Prod.fst ++
  (WINAPI_REG_TYPES.map Prod.fst).map (List.drop 4) ++
  REG_VALUE_KINDS.map Prod.fst ++
  REG_FRIENDLY_NAMES.map Prod.snd

/-- C6 counterexample: 5 (`REG_DWORD_BIG_ENDIAN`) is outside the supported
set, yet `get_name` succeeds and returns the name `"UNKNOWN"` instead of
failing: `normalise` clamps every unsupported code to 0 first, and 0 has
the canonical name `"UNKNOWN"`, so the name-not-found failure is
unreachable for integer codes. -/
theorem getName_unsupported_returns_unknown :
    SUPPORTED_REG_TYPES.contains 5 = false ∧ getName1 (.int 5) false = .ok (sL "UNKNOWN") := by
  decide

/-- C6 (amended): normalisation never raises for integer codes or for any
name of the three naming schemes, unsupported integer codes normalise to
the unknown code 0 — and `get_name` on an unsupported code also succeeds,
returning the name `"UNKNOWN"` (it does not fail). -/
theorem normalise_total_getName_unknown :
    (∀ i : Int, SUPPORTED_REG_TYPES.contains i = false → normalise1 (.int i) = .ok 0)
    ∧ (∀ s ∈ regTypeNameDomain, exOk (normalise1 (.str s)) = true)
    ∧ (∀ i : Int, SUPPORTED_REG_TYPES.contains i = false →
        getName1 (.int i) false = .ok (sL "UNKNOWN")) := by
  refine ⟨fun i h => ?_, by decide, fun i h => ?_⟩
  · have h' : i ∉ SUPPORTED_REG_TYPES := by simpa using h
    simp [normalise1, clampSupported, h']
  · have h' : i ∉ SUPPORTED_REG_TYPES := by simpa using h
    simp +decide [getName1, normalise1, clampSupported, h', alookup, REG_VALUE_KIND_NAMES]

/-- C6 witness: the amended statement at the concrete unsupported code 5. -/
theorem normalise_total_getName_unknown_witness :
    normalise1 (.int 5) = .ok 0 ∧ getName1 (.int 5) false = .ok (sL "UNKNOWN") :=
  ⟨normalise_total_getName_unknown.1 5 (by decide),
   normalise_total_getName_unknown.2.2 5 (by decide)⟩

/-- C7: normalisation is idempotent — whatever representation `t` it
succeeds on, re-normalising the resulting integer code returns the same
code — and every integer code outside the supported set normalises to the
single unknown sentinel 0. -/
theorem normalise_idempotent :
    (∀ (t : RegTy) (i : Int), normalise1 t = .ok i → normalise1 (.int i) = .ok i)
    ∧ (∀ i : Int, SUPPORTED_REG_TYPES.contains i = false → normalise1 (.int i) = .ok 0) := by
  constructor
  · intro t i h
    have hm : i ∈ SUPPORTED_REG_TYPES := by simpa using normalise1_ok_supported t i h
    simp [normalise1, clampSupported, hm]
  · intro i h
    have h' : i ∉ SUPPORTED_REG_TYPES := by simpa using h
    simp [normalise1, clampSupported, h']

/-- C7 witness: idempotence through the friendly name `"DWord"`, and the
unsupported code 6 (`REG_LINK`) collapsing to 0. -/
theorem normalise_idempotent_witness :
    normalise1 (.int 4) = .ok 4 ∧ normalise1 (.int 6) = .ok 0 :=
  ⟨normalise_idempotent.1 (.str (sL "DWord")) 4 (by decide),
   normalise_idempotent.2 6 (by decide)⟩

/-!
## C10 — the `'50'` pattern of the device classifier
-/

/-- A `"50"` substring survives lower-casing (digits are fixed points). -/
theorem isSubL_fifty_lower (s : Str) (h : isSubL (sL "50") s = true) :
    isSubL (sL "50") (lowerL s) = true := by
  have h50 : sL "50" = ['5', '0'] := by decide
  rw [h50] at h ⊢
  induction s with
  | nil => exact absurd h (by decide)
  | cons c cs ih =>
    simp only [isSubL, Bool.or_eq_true] at h
    rcases h with h1 | h2
    · obtain ⟨t, ht⟩ := List.isPrefixOf_iff_prefix.mp h1
      simp only [List.cons_append, List.nil_append] at ht
      injection ht with ha hb
      subst ha
      subst hb
      have l5 : lowerChar '5' = '5' := by decide
      have l0 : lowerChar '0' = '0' := by decide
      simp only [lowerL, List.map_cons, l5, l0, isSubL, List.map_append, Bool.or_eq_true]
      exact Or.inl (List.isPrefixOf_iff_prefix.mpr ⟨t.map lowerChar, rfl⟩)
    · have hx := ih h2
      simp only [lowerL, List.map_cons, isSubL] at hx ⊢
      rw [hx]
      simp

/-- With three units of head room the matcher accepts every string
starting with `"50"` on the pattern `50`. -/
theorem matchAt_fifty (f : Nat) (prev : Option Char) (s : Str)
    (h : (sL "50").isPrefixOf s = true) :
    matchAt (f + 1 + 1 + 1) [.lit '5', .lit '0'] prev s = true := by
  have h50 : sL "50" = ['5', '0'] := by decide
  rw [h50] at h
  obtain ⟨t, ht⟩ := List.isPrefixOf_iff_prefix.mp h
  simp only [List.cons_append, List.nil_append] at ht
  subst ht
  simp [matchAt]

/-- The search on the pattern `50` succeeds wherever `"50"` occurs. -/
theorem reSearchAux_fifty (s : Str) (prev : Option Char) (h : isSubL (sL "50") s = true) :
    reSearchAux [.lit '5', .lit '0'] prev s = true := by
  induction s generalizing prev with
  | nil => exact absurd h (by decide)
  | cons c cs ih =>
    simp only [isSubL, Bool.or_eq_true] at h
    rw [reSearchAux]
    rcases h with h1 | h2
    · have he : [RE.lit '5', RE.lit '0'].length + (c :: cs).length + 1
          = (c :: cs).length + 1 + 1 + 1 := by
        simp only [List.length_cons, List.length_nil]
        omega
      rw [he, matchAt_fifty ((c :: cs).length) prev (c :: cs) h1]
      simp
    · rw [ih (some c) h2]
      simp

/-- C10 counterexample: the output `"access is denied 50"` contains the
substring `"50"`, but the classifier raises `DevicePermissionError`, not
`DevicePropertyExistsError` — the permission patterns come first in
`ERROR_MAP`. -/
theorem pnp_fifty_not_always_propertyExists :
    isSubL (sL "50") (sL "access is denied 50") = true ∧
    pnpCheck pnpAllErrs (sL "access is denied 50") none = some .devPermission := by
  decide

/-- C10 (amended): whenever `"50"` occurs in the output text or in
`str(rc)` AND none of the earlier map entries (permission, aborted,
device-not-found) matches, the classifier raises the property-already-set
condition — so outputs whose return code merely contains 50 (e.g. 150) or
whose text contains an unrelated `"50"` are misclassified. -/
theorem pnp_fifty_classifies_propertyExists :
    ∀ (out : Str) (rc : Option Int),
      (isSubL (sL "50") out = true ∨ isSubL (sL "50") (strOfRc rc) = true) →
      pnpCheck [.devPermission, .devAborted, .devNotFound] out rc = none →
      pnpCheck pnpAllErrs out rc = some .devPropertyExists := by
  intro out rc h50 hearly
  have hpat : lits "50" = [RE.lit '5', RE.lit '0'] := by decide
  have hs : regexSearch patFifty (lowerL out) = true ∨
      regexSearch patFifty (lowerL (strOfRc rc)) = true := by
    rcases h50 with h | h
    · exact Or.inl (by
        simp only [regexSearch, patFifty, List.any_cons, List.any_nil, reSearch, hpat]
        rw [reSearchAux_fifty _ none (isSubL_fifty_lower _ h)]
        simp)
    · exact Or.inr (by
        simp only [regexSearch, patFifty, List.any_cons, List.any_nil, reSearch, hpat]
        rw [reSearchAux_fifty _ none (isSubL_fifty_lower _ h)]
        simp)
  have e1 : errMem Err.devPermission [Err.devPermission, Err.devAborted, Err.devNotFound] = true := by decide
  have e2 : errMem Err.devAborted [Err.devPermission, Err.devAborted, Err.devNotFound] = true := by decide
  have e3 : errMem Err.devNotFound [Err.devPermission, Err.devAborted, Err.devNotFound] = true := by decide
  have e4 : errMem Err.devPropertyExists [Err.devPermission, Err.devAborted, Err.devNotFound] = false := by decide
  have a1 : errMem Err.devPermission pnpAllErrs = true := by decide
  have a2 : errMem Err.devAborted pnpAllErrs = true := by decide
  have a3 : errMem Err.devNotFound pnpAllErrs = true := by decide
  have a4 : errMem Err.devPropertyExists pnpAllErrs = true := by decide
  simp only [pnpCheck, checkMapRc, pnpErrorMap, e1, e2, e3, e4, Bool.true_and,
    Bool.false_and, if_false, Bool.false_eq_true, ite_false] at hearly
  simp only [pnpCheck, checkMapRc, pnpErrorMap, a1, a2, a3, a4, Bool.true_and]
  split at hearly
  · exact absurd hearly (by simp)
  · split at hearly
    · exact absurd hearly (by simp)
    · split at hearly
      · exact absurd hearly (by simp)
      · rename_i hn1 hn2 hn3
        rw [if_neg hn1, if_neg hn2, if_neg hn3, if_pos]
        simp only [List.any_cons, List.any_nil, Bool.or_eq_true]
        rcases hs with h | h
        · exact Or.inr (Or.inr (Or.inl (Or.inl h)))
        · exact Or.inr (Or.inr (Or.inl (Or.inr h)))

/-- C10 amended-claim witness: return code 150 with an innocuous output is
classified as property-already-set. -/
theorem pnp_fifty_classifies_propertyExists_witness :
    pnpCheck pnpAllErrs (sL "completed") (some 150) = some .devPropertyExists :=
  pnp_fifty_classifies_propertyExists (sL "completed") (some 150)
    (by decide) (by decide)

/-!
## C4 — elevation consent in Run.run_ps
-/

/-- An elevated `run_ps` call never consults the consent dialog and
records exactly its own invocation: the retry branch requires
`not elevate`. -/
theorem runPS_elevated_trace (env : Env) (cmd : Str) (f : Nat) (auto check : Bool) (tr : Trace) :
    (runPS env cmd (f + 1) true auto check tr).2 = ⟨tr.asks, tr.runs ++ [(cmd, true)]⟩ := by
  rw [runPS]
  split
  · split <;> rfl
  · cases hc : cmdCheck [Err.accessDenied]
        ((env.resp cmd true).out ++ sL "\n" ++ (env.resp cmd true).err) with
    | none => simp only [hc]
    | some e =>
      cases e <;> (simp only [hc]; try (cases check <;> rfl))

/-- C4: when the unelevated run's output classifies as access-denied and
`auto_elevate` holds, the consent collaborator is consulted exactly once;
on consent the command is re-invoked exactly once with `elevate=true`
(and that elevated run performs no further automatic retry); on refusal
`run_ps` fails with `UserAbortedError` and no retry command is issued. -/
theorem runPS_accessDenied_consent (env : Env) (cmd : Str) (f : Nat) (check : Bool) (tr : Trace)
    (hAD : cmdCheck [.accessDenied]
      ((env.resp cmd false).out ++ sL "\n" ++ (env.resp cmd false).err) = some .accessDenied) :
    (runPS env cmd (f + 2) false true check tr).2.asks = tr.asks + 1
    ∧ (env.ask = true →
        (runPS env cmd (f + 2) false true check tr).2.runs
          = tr.runs ++ [(cmd, false), (cmd, true)]
        ∧ runPS env cmd (f + 2) false true check tr
          = runPS env cmd (f + 1) true true false ⟨tr.asks + 1, tr.runs ++ [(cmd, false)]⟩)
    ∧ (env.ask = false →
        (runPS env cmd (f + 2) false true check tr).1 = .error .userAborted
        ∧ (runPS env cmd (f + 2) false true check tr).2.runs = tr.runs ++ [(cmd, false)]) := by
  have hrun : runPS env cmd (f + 2) false true check tr
      = if env.ask then
          runPS env cmd (f + 1) true true false ⟨tr.asks + 1, tr.runs ++ [(cmd, false)]⟩
        else (.error .userAborted, ⟨tr.asks + 1, tr.runs ++ [(cmd, false)]⟩) := by
    conv_lhs => rw [runPS]
    simp only [hAD, if_true]
  refine ⟨?_, fun ha => ?_, fun ha => ?_⟩
  · rw [hrun]
    cases ha : env.ask with
    | true =>
      simp only [ha, if_true]
      rw [runPS_elevated_trace]
    | false => simp [ha]
  · rw [hrun, ha, if_pos rfl]
    refine ⟨?_, rfl⟩
    rw [runPS_elevated_trace]
    simp
  · rw [hrun, ha]
    simp

/-- A concrete world for the C4 witness: the unelevated run is denied, the
elevated run succeeds, consent is granted. -/
def envC4 : Env :=
  { resp := fun _ elev =>
      if elev then ⟨0, sL "done", []⟩ else ⟨1, sL "Access is denied.", []⟩,
    wrapOut := fun _ => [],
    wrapErr := fun _ => [],
    regFile := fun _ _ => none,
    ask := true }

/-- C4 witness: the theorem applied at `envC4`. -/
theorem runPS_accessDenied_consent_witness :
    (runPS envC4 (sL "pnputil /enable-device \"X\"") 2 false true false ⟨0, []⟩).2.asks = 0 + 1
    ∧ (runPS envC4 (sL "pnputil /enable-device \"X\"") 2 false true false ⟨0, []⟩).2.runs
        = [] ++ [(sL "pnputil /enable-device \"X\"", false), (sL "pnputil /enable-device \"X\"", true)] :=
  have h := runPS_accessDenied_consent envC4 (sL "pnputil /enable-device \"X\"") 0 false ⟨0, []⟩
    (by decide)
  ⟨h.1, (h.2.1 rfl).1⟩

/-!
## C9 — mode=system on a device without a system key
-/

/-- Model of `Touchpad._check` with mode `system` raises for every state: an
`AssertionError` when the state is invalid, otherwise the
`NotImplementedError` of the keyless subtype. -/
theorem checkArgs_touchpad_system (state : Str) :
    checkArgs Touchpad state (sL "system") = .error .assertionError ∨
    checkArgs Touchpad state (sL "system") = .error .notImplemented := by
  by_cases h : state = sL "enable" ∨ state = sL "disable" ∨ state = sL "none"
  · right
    simp +decide [checkArgs, h, Touchpad]
  · left
    simp +decide [checkArgs, h, Touchpad]

/-- C9: `toggle` on the touchpad with mode `system` fails with
`DeviceInvalidOperationError` for every state and every flag combination,
fires no notification, and leaves the trace untouched — no external
command of any kind is issued before the failure. -/
theorem toggle_touchpad_system_invalid :
    ∀ (env : Env) (state : Str) (f : Nat) (elevate auto : Bool) (tr : Trace),
      toggleFn env Touchpad state (sL "system") (f + 1) elevate auto tr
        = ((.error .devInvalidOperation, 0), tr) := by
  intro env state f elevate auto tr
  rcases checkArgs_touchpad_system state with hc | hc <;>
    simp [toggleFn, toggleDec, toggleRaw, hc, mapErr, devHandle]

/-!
## C3 — exactly one notification per successful toggle
-/

/-- Enumeration output with exactly one matching touchscreen block. -/
def enumOutTS : Str :=
  sL "Microsoft PnP Utility\n\nInstance ID: ACPI\\TS01\nDevice Description: Touchscreen\nStatus: Started\n\n"

/-- A world in which the device is already enabled: the toggle command
answers with an "already enabled" message. -/
def envAlready : Env :=
  { resp := fun cmd _ =>
      if cmd = enumCmd then ⟨0, enumOutTS, []⟩
      else ⟨0, sL "Microsoft PnP Utility\n\nDevice is already enabled.\n", []⟩,
    wrapOut := fun _ => [],
    wrapErr := fun _ => [],
    regFile := fun _ _ => none,
    ask := true }

/-- A world in which the unelevated toggle command is denied, consent is
granted, and the elevated retry succeeds. -/
def envRetry : Env :=
  { resp := fun cmd elev =>
      if cmd = enumCmd then ⟨0, enumOutTS, []⟩
      else if elev then
        ⟨0, sL "Microsoft PnP Utility\n\nEnabling device:     ACPI\\TS01\nDevice enabled successfully.\n", []⟩
      else ⟨1, [], sL "Access is denied."⟩,
    wrapOut := fun _ => [],
    wrapErr := fun _ => [],
    regFile := fun _ _ => none,
    ask := true }

/-- C3: `toggle` notifies exactly once after the outer operation succeeds
and never when it raises (first conjunct, for every world and argument);
an "already enabled"-classified response completes the toggle without
raising and still fires exactly one notification (second conjunct); and
an internal elevation retry — one consent consultation, two enumeration
calls, an unelevated and an elevated toggle command — still fires exactly
one notification, after the final success only (remaining conjuncts). -/
theorem toggle_notifies_exactly_once :
    (∀ (env : Env) (dev : DeviceCls) (state mode : Str) (fuel : Nat) (elevate auto : Bool)
        (tr : Trace),
      (toggleFn env dev state mode fuel elevate auto tr).1.2
        = if exOk (toggleFn env dev state mode fuel elevate auto tr).1.1 then 1 else 0)
    ∧ (toggleFn envAlready Touchscreen (sL "enable") (sL "device") 2 false true ⟨0, []⟩).1
        = (.ok (), 1)
    ∧ (toggleFn envRetry Touchscreen (sL "enable") (sL "device") 2 false true ⟨0, []⟩).1
        = (.ok (), 1)
    ∧ (toggleFn envRetry Touchscreen (sL "enable") (sL "device") 2 false true ⟨0, []⟩).2.asks = 1
    := by
  refine ⟨fun env dev state mode fuel elevate auto tr => ?_, by decide, by decide, by decide⟩
  unfold toggleFn
  cases h : (toggleDec env dev state mode fuel elevate auto tr).1 <;> simp [h, exOk]

/-!
## C8 — get_device keeps matching blocks and requires exactly one
-/

/-- C8: on any enumeration output that classifies clean, `get_device`
(with `get_all=False`) returns the parsed field map of the unique block
that contains a match substring and a colon, and fails with
`DeviceNotFoundError` whenever the number of such blocks differs from
one.  (`deviceBlocks` is the split-filter-parse pipeline of the source:
blank-line-separated blocks, kept iff some device name occurs
case-insensitively and a colon occurs, each parsed into a field map.) -/
theorem getDevice_requires_unique_block (env : Env) (names : List Str) (f : Nat) (auto : Bool)
    (tr : Trace) (r0 : CmdOut)
    (hresp : env.resp enumCmd false = r0)
    (hclean : pnpCheck pnpAllErrs (stripL (lowerL (r0.out ++ sL "\n" ++ r0.err))) none = none) :
    (∀ d, deviceBlocks r0.out names = [d] →
      (getDevice env names (f + 1) false false auto tr).1 = .ok (.one d))
    ∧ ((deviceBlocks r0.out names).length ≠ 1 →
      (getDevice env names (f + 1) false false auto tr).1 = .error .devNotFound) := by
  have hrun : runPS env enumCmd (f + 1) false false false tr
      = (.ok r0, ⟨tr.asks, tr.runs ++ [(enumCmd, false)]⟩) := by
    rw [runPS]
    simp only [hresp]
    cases hc : cmdCheck [Err.accessDenied] (r0.out ++ sL "\n" ++ r0.err) with
    | none => simp [hc]
    | some e => cases e <;> simp [hc]
  have hmain : getDeviceRaw env names (f + 1) false false auto tr
      = (match deviceBlocks r0.out names with
         | [d] => (.ok (.one d), ⟨tr.asks, tr.runs ++ [(enumCmd, false)]⟩)
         | _ => (.error .devNotFound, ⟨tr.asks, tr.runs ++ [(enumCmd, false)]⟩)) := by
    rw [getDeviceRaw, hrun]
    simp only [hclean]
    rw [if_neg (by decide)]
  constructor
  · intro d hd
    rw [getDevice, hmain, hd]
    rfl
  · intro hlen
    cases hb : deviceBlocks r0.out names with
    | nil => rw [getDevice, hmain, hb]; rfl
    | cons d rest =>
      cases rest with
      | nil => exact absurd (by rw [hb]; rfl) hlen
      | cons d2 rest2 => rw [getDevice, hmain, hb]; rfl

/-- A concrete world for the C8 witness: the enumeration answers with one
matching touchscreen block. -/
def envC8 : Env :=
  { resp := fun _ _ => ⟨0, enumOutTS, []⟩,
    wrapOut := fun _ => [],
    wrapErr := fun _ => [],
    regFile := fun _ _ => none,
    ask := false }

/-- C8 witness: the theorem applied at `envC8` — the single matching block
is parsed into its field map. -/
theorem getDevice_requires_unique_block_witness :
    (getDevice envC8 Touchscreen.device_names 1 false false true ⟨0, []⟩).1
      = .ok (.one [(sL "Instance ID", sL "ACPI\\TS01"),
                   (sL "Device Description", sL "Touchscreen"),
                   (sL "Status", sL "Started")]) :=
  (getDevice_requires_unique_block envC8 Touchscreen.device_names 0 true ⟨0, []⟩
      ⟨0, enumOutTS, []⟩ rfl (by decide)).1 _ (by decide)

/-!
## C2 — set_reg on a fresh key path
-/

/-- The fresh key path of the C2 scenario. -/
def pathC2 : Str := sL "HKCU:\\Software\\Fresh\\Key"

/-- A world in which `pathC2` does not exist: `Test-Path` answers
`False`, and the `get_reg` probe reports that the key does not exist. -/
def envC2 : Env :=
  { resp := fun cmd _ =>
      if cmd = testPathCmd pathC2 then ⟨0, sL "False\n", []⟩
      else ⟨1, [],
        sL "Get-Item : Cannot find path 'HKCU:\\Software\\Fresh\\Key' because it does not exist.\n"⟩,
    wrapOut := fun _ => [],
    wrapErr := fun _ => [],
    regFile := fun _ _ => none,
    ask := false }

set_option maxRecDepth 20000 in
/-- C2 (the code, evaluated at the failing input): `set_reg` of a named
value on a key path that does not exist raises
`RuntimeError("Detected an exisitng key. Raising to prevent overwriting")`
and never issues the `New-Item` creation command — the recorded
invocations are only the skip-check `get_reg` probe and the two
`Test-Path` probes.  The guard `if not cls.test_reg(path): raise` is
inverted: it fires exactly when no key exists, so the creation branch is
unreachable and no key or intermediate level is ever created. -/
theorem setReg_fresh_path_always_raises :
    setReg envC2 pathC2 (some (sL "Enabled")) (some (.int 1)) (some (.int 4)) 2 true false true
        ⟨0, []⟩
      = (.error .runtimeError,
         ⟨0, [(getRegCmd pathC2 (sL "Enabled"), false),
              (testPathCmd pathC2, false),
              (testPathCmd pathC2, false)]⟩) := by
  decide

/-!
## C5 — the elevated retry of set_reg drops the operation
-/

/-- The existing key path of the C5 scenario. -/
def pathC5 : Str := sL "HKCU:\\Software\\Existing\\Key"

/-- A world in which `pathC5` exists, the value is absent, the
`Set-ItemProperty` run is permission-denied both unelevated and elevated,
and consent is granted. -/
def envC5 : Env :=
  { resp := fun cmd _ =>
      if cmd = testPathCmd pathC5 then ⟨0, sL "True\n", []⟩
      else if cmd = getRegCmd pathC5 (sL "Enabled") then ⟨1, [], sL "ItemNotFoundException\n"⟩
      else ⟨1, [], sL "Set-ItemProperty : Requested registry access is not allowed.\n"⟩,
    wrapOut := fun _ => [],
    wrapErr := fun _ => [],
    regFile := fun _ _ => none,
    ask := true }

set_option maxRecDepth 20000 in
/-- C5 (the code, evaluated at the failing input): when the named-value
`Set-ItemProperty` run classifies as a permission failure and consent is
granted, the retry `cls.set_reg(path, name, elevate=True)` drops `value`
and `reg_type`, so it fails the parameter-set validation with
`ValueError("Bad parameter set")` instead of repeating the named-value
set elevated: the trace shows no further registry command after the
denied ones. -/
theorem setReg_elevated_retry_bad_parameter_set :
    setReg envC5 pathC5 (some (sL "Enabled")) (some (.int 1)) (some (.int 4)) 2 true false true
        ⟨0, []⟩
      = (.error .valueError,
         ⟨2, [(getRegCmd pathC5 (sL "Enabled"), false),
              (testPathCmd pathC5, false),
              (setPropCmd pathC5 (sL "Enabled") (.int 1) (sL "DWORD"), false),
              (setPropCmd pathC5 (sL "Enabled") (.int 1) (sL "DWORD"), true)]⟩) := by
  decide
